import Mathlib

/-!
Shallow embedding of the two plugin adapters of this repository:
the Paymongo payment-processor adapter (src/services/paymongo.ts) and the
Supabase file-storage adapter.  Network effects are made explicit: each
embedded operation takes the vendor response it would have fetched as an
argument, and a thrown error / returned platform error is an Except value.
-/

namespace OdysseyStore

/-- The platform payment-session states produced by this adapter
(AUTHORIZED, PENDING, ERROR are the only members of the Medusa
PaymentSessionStatus enumeration the adapter ever returns). -/
inductive PaymentSessionStatus where
  | AUTHORIZED
  | PENDING
  | ERROR
  deriving DecidableEq, Repr

/-- The fields of the vendor payment-intent response that the adapter
destructures: data.id and data.attributes.\x7bamount, status, currency\x7d. -/
structure PaymentIntentSnapshot where
  id : String
  amount : Int
  status : String
  currency : String
  deriving DecidableEq, Repr

/-- The fields of the platform cart that authorizePayment reads:
total and region.currency_code. -/
structure OrderExpectation where
  total : Int
  currencyCode : String
  deriving DecidableEq, Repr

/-- The successful return value of authorizePayment:
\x7bstatus, data: \x7bpaymentIntentId, paymentStatus\x7d\x7d. -/
structure AuthorizeSuccess where
  status : PaymentSessionStatus
  paymentIntentId : String
  paymentStatus : String
  deriving DecidableEq, Repr

/-- Embedding of PaymongoPaymentService.authorizePayment
(src/services/paymongo.ts lines 131-186), with the fetched payment intent
and the retrieved cart passed in explicitly.  The source computes
isValidAmount as (amount === total) and isValidCurrency as
(currencyCode === currency.toLowerCase()); it returns
\x7bstatus: AUTHORIZED, data\x7d when status is "succeeded" and both checks
hold, and in every other branch it falls through with no return statement,
i.e. the promise resolves to undefined — modelled as none. -/
def authorizePayment (snapshot : PaymentIntentSnapshot)
    (expectation : OrderExpectation) : Option AuthorizeSuccess :=
  let isValidAmount : Bool := snapshot.amount == expectation.total
  let isValidCurrency : Bool := expectation.currencyCode == snapshot.currency.toLower
  if snapshot.status == "succeeded" then
    if isValidAmount && isValidCurrency then
      some { status := PaymentSessionStatus.AUTHORIZED
             paymentIntentId := snapshot.id
             paymentStatus := snapshot.status }
    else
      none
  else
    none

/-- Embedding of PaymongoPaymentService.getPaymentStatus
(src/services/paymongo.ts lines 188-227), with the fetched payment intent
passed in explicitly; a falsy (absent) response is modelled as none. -/
def getPaymentStatus (paymentIntentData : Option PaymentIntentSnapshot) :
    PaymentSessionStatus :=
  match paymentIntentData with
  | none => PaymentSessionStatus.ERROR
  | some d =>
    if d.status == "succeeded" then PaymentSessionStatus.AUTHORIZED
    else if d.status == "awaiting_next_action" then PaymentSessionStatus.PENDING
    else if d.status == "awaiting_payment_method" then PaymentSessionStatus.PENDING
    else if d.status == "processing" then PaymentSessionStatus.PENDING
    else PaymentSessionStatus.ERROR

/-- The structured error object built by buildError:
\x7berror, code, detail\x7d. -/
structure PaymentProcessorError where
  error : String
  code : String
  detail : String
  deriving DecidableEq, Repr

/-- The second argument of buildError: either an object
\x7bcode?: string, detail: string\x7d or a JS Error (message, stack?). -/
inductive BuildErrorArg where
  | obj (code : Option String) (detail : String)
  | err (message : String) (stack : Option String)
  deriving DecidableEq, Repr

/-- Embedding of PaymongoPaymentService.buildError
(src/services/paymongo.ts lines 304-322). -/
def buildError (message : String) (e : BuildErrorArg) : PaymentProcessorError :=
  let errorMessage := "Paymongo error: " ++ message
  match e with
  | BuildErrorArg.obj code detail =>
      { error := errorMessage, code := code.getD "", detail := detail }
  | BuildErrorArg.err msg stack =>
      { error := errorMessage, code := msg, detail := stack.getD "" }

/-- The part of a fetch Response that fetchPaymongo inspects: ok, status,
statusText, and the parsed JSON body (kept abstract as a string). -/
structure HttpResponse where
  ok : Bool
  status : Nat
  statusText : String
  body : String
  deriving DecidableEq, Repr

/-- Embedding of PaymongoPaymentService.fetchPaymongo
(src/services/paymongo.ts lines 32-60), with the HTTP response passed in
explicitly.  When res.ok is false the source calls
this.buildError("Unable to fetch from paymongo", \x7bcode: String(res.status),
detail: res.statusText\x7d) but neither throws nor returns that value — the
built error is discarded and the function proceeds to return res.json();
the embedding keeps the discarded value in a dead let binding. -/
def fetchPaymongo (res : HttpResponse) : Except PaymentProcessorError String :=
  let discardedError : Option PaymentProcessorError :=
    if !res.ok then
      some (buildError "Unable to fetch from paymongo"
        (BuildErrorArg.obj (some (toString res.status)) res.statusText))
    else
      none
  Except.ok res.body

/-- Embedding of PaymongoPaymentService.refundPayment
(src/services/paymongo.ts lines 229-234): it unconditionally throws
Error("Method not implemented. refundPayment"), modelled as Except.error. -/
def refundPayment {α : Type} (paymentSessionData : α) (refundAmount : Int) :
    Except String α :=
  Except.error "Method not implemented. refundPayment"

/-- Embedding of PaymongoPaymentService.capturePayment
(src/services/paymongo.ts lines 286-290): it returns paymentSessionData
unchanged, throwing nothing. -/
def capturePayment {α : Type} (paymentSessionData : α) : Except String α :=
  Except.ok paymentSessionData

/-- The argument of the storage adapter's delete operation:
\x7bfileKey: string\x7d. -/
structure DeleteFileType where
  fileKey : String
  deriving DecidableEq, Repr

/-- Embedding of SupabaseFIleService.delete (storage adapter, lines 97-109):
the list of object paths the method passes to storageClient.storage
.from(bucket).remove(...).  The source passes the hardcoded singleton
list containing assets/34ecd528-0377-4dfa-b3f4-1f3aa9018b8a.jpg and
never reads fileData.fileKey except to log it. -/
def deleteRemovePaths (fileData : DeleteFileType) : List String :=
  ["assets/34ecd528-0377-4dfa-b3f4-1f3aa9018b8a.jpg"]

/-- C1: authorizePayment returns AUTHORIZED if and only if the snapshot
status is exactly "succeeded", the snapshot amount equals the expectation
total, and the lowercased snapshot currency equals the expectation
currency code; AUTHORIZED is never returned when any condition fails. -/
theorem authorizePayment_AUTHORIZED_iff (snapshot : PaymentIntentSnapshot)
    (expectation : OrderExpectation) :
    (∃ d, authorizePayment snapshot expectation = some d ∧
        d.status = PaymentSessionStatus.AUTHORIZED) ↔
      snapshot.status = "succeeded" ∧ snapshot.amount = expectation.total ∧
        snapshot.currency.toLower = expectation.currencyCode := by
  rw [show (snapshot.currency.toLower = expectation.currencyCode) ↔
      (expectation.currencyCode = snapshot.currency.toLower) from eq_comm]
  unfold authorizePayment
  by_cases hs : snapshot.status = "succeeded" <;>
    by_cases ha : snapshot.amount = expectation.total <;>
      by_cases hc : expectation.currencyCode = snapshot.currency.toLower <;>
        simp [hs, ha, hc]

/-- C2 (code bug): at the spec's own example — snapshot
\x7bstatus:"succeeded", amount:4000, currency:"PHP"\x7d against expectation
\x7btotal:5000, currencyCode:"php"\x7d — authorizePayment returns no value
(none) rather than the explicit ERROR / mismatch result the spec mandates. -/
theorem authorizePayment_mismatch_returns_none :
    authorizePayment
        { id := "pi_1", amount := 4000, status := "succeeded", currency := "PHP" }
        { total := 5000, currencyCode := "php" } = none := by
  simp [authorizePayment]

/-- C3 (code bug): for a snapshot with the pending-like status "processing",
authorizePayment returns no value (none) instead of the PENDING result the
spec's decision table requires. -/
theorem authorizePayment_processing_returns_none :
    authorizePayment
        { id := "pi_2", amount := 5000, status := "processing", currency := "PHP" }
        { total := 5000, currencyCode := "php" } = none := by
  simp [authorizePayment]

/-- C4 (code bug): getPaymentStatus and authorizePayment disagree on the
status "awaiting_next_action", where the amount/currency gate is not in
play: the former returns PENDING while the latter returns no value (none),
so the two mappings do not agree on all non-"succeeded" statuses. -/
theorem getPaymentStatus_authorizePayment_disagree :
    getPaymentStatus
        (some { id := "pi_3", amount := 5000, status := "awaiting_next_action",
                currency := "PHP" }) = PaymentSessionStatus.PENDING ∧
      authorizePayment
          { id := "pi_3", amount := 5000, status := "awaiting_next_action",
            currency := "PHP" }
          { total := 5000, currencyCode := "php" } = none := by
  constructor
  · simp [getPaymentStatus]
  · simp [authorizePayment]

/-- C5: getPaymentStatus returns AUTHORIZED exactly on a present snapshot
with status "succeeded", PENDING exactly on a present snapshot with one of
the three pending-like statuses, and ERROR exactly on an absent snapshot or
any other status. -/
theorem getPaymentStatus_spec (d : Option PaymentIntentSnapshot) :
    (getPaymentStatus d = PaymentSessionStatus.AUTHORIZED ↔
        ∃ s, d = some s ∧ s.status = "succeeded") ∧
      (getPaymentStatus d = PaymentSessionStatus.PENDING ↔
        ∃ s, d = some s ∧ (s.status = "awaiting_next_action" ∨
          s.status = "awaiting_payment_method" ∨ s.status = "processing")) ∧
      (getPaymentStatus d = PaymentSessionStatus.ERROR ↔
        (d = none ∨ ∃ s, d = some s ∧ s.status ≠ "succeeded" ∧
          s.status ≠ "awaiting_next_action" ∧ s.status ≠ "awaiting_payment_method" ∧
          s.status ≠ "processing")) := by
  cases d with
  | none => simp [getPaymentStatus]
  | some s =>
    by_cases h1 : s.status = "succeeded"
    · simp [getPaymentStatus, h1]
    · by_cases h2 : s.status = "awaiting_next_action"
      · simp [getPaymentStatus, h1, h2]
      · by_cases h3 : s.status = "awaiting_payment_method"
        · simp [getPaymentStatus, h1, h2, h3]
        · by_cases h4 : s.status = "processing"
          · simp [getPaymentStatus, h1, h2, h3, h4]
          · simp [getPaymentStatus, h1, h2, h3, h4]

/-- C6 (code bug): at a non-success HTTP response (status 404), fetchPaymongo
does not surface the structured error to its caller: it proceeds and returns
the parsed response body. -/
theorem fetchPaymongo_not_ok_returns_body :
    fetchPaymongo
        { ok := false, status := 404, statusText := "Not Found",
          body := "\x7b\x7d" } =
      Except.ok "\x7b\x7d" := by
  simp [fetchPaymongo]

/-- C7 (counterexample): capturePayment, called on the concrete session data
37, returns normally with its input instead of failing with a
"not implemented" error. -/
theorem capturePayment_returns_normally_cex :
    capturePayment (37 : Nat) = Except.ok 37 ∧
      capturePayment (37 : Nat) ≠
        Except.error "Method not implemented. capturePayment" := by
  constructor
  · rfl
  · simp [capturePayment]

/-- C7 (amended): capturePayment never fails: for every input it returns
the session data unchanged (only refundPayment throws "not implemented"). -/
theorem capturePayment_returns_input {α : Type} (paymentSessionData : α) :
    capturePayment paymentSessionData = Except.ok paymentSessionData := rfl

/-- C8: refundPayment fails loudly on every input with the
"Method not implemented. refundPayment" error and never returns normally. -/
theorem refundPayment_not_implemented {α : Type} (paymentSessionData : α)
    (refundAmount : Int) :
    refundPayment paymentSessionData refundAmount =
      Except.error "Method not implemented. refundPayment" := rfl

/-- C9: authorizePayment is deterministic: two invocations with identical
snapshot and expectation inputs yield identical outputs. -/
theorem authorizePayment_deterministic (s1 s2 : PaymentIntentSnapshot)
    (e1 e2 : OrderExpectation) (hs : s1 = s2) (he : e1 = e2) :
    authorizePayment s1 e1 = authorizePayment s2 e2 := by
  rw [hs, he]

/-- C9 witness: determinism applied at a concrete snapshot and expectation. -/
theorem authorizePayment_deterministic_witness :
    authorizePayment
        { id := "pi_w", amount := 100, status := "succeeded", currency := "PHP" }
        { total := 100, currencyCode := "php" } =
      authorizePayment
        { id := "pi_w", amount := 100, status := "succeeded", currency := "PHP" }
        { total := 100, currencyCode := "php" } :=
  authorizePayment_deterministic _ _ _ _ rfl rfl

/-- C10: the storage adapter's delete operation removes the same hardcoded
object path for every input, ignoring fileData.fileKey entirely: the removed
list is the constant singleton and is independent of the input. -/
theorem deleteRemovePaths_constant (fd fd2 : DeleteFileType) :
    deleteRemovePaths fd = ["assets/34ecd528-0377-4dfa-b3f4-1f3aa9018b8a.jpg"] ∧
      deleteRemovePaths fd = deleteRemovePaths fd2 := ⟨rfl, rfl⟩

end OdysseyStore
